import Mathlib

/-!
Verification of the application-factory module of the BN3 banking app
(`app/__init__.py`).  Python strings are embedded as `List Char`
(restricted to the ASCII fragment actually reachable from session
cookies and configuration values); the database visible to this module
is embedded as explicit lists of rows; the side effects of the startup
seeding step and of the error handlers are recorded as event traces.
-/

/-- Python's `str.startswith`: `startswith s p` is `s.startswith(p)`. -/
def startswith : List Char → List Char → Bool
  | _, [] => true
  | [], _ :: _ => false
  | c :: cs, p :: ps => c = p && startswith cs ps

/-- Python's `str.split(sep)` with a one-character separator and no
maxsplit: splits at every occurrence of `sep`, keeping empty pieces, so
`"".split('_') = [""]` and `"admin_".split('_') = ["admin", ""]`. -/
def pySplit (sep : Char) : List Char → List (List Char)
  | [] => [[]]
  | c :: rest =>
    if c = sep then [] :: pySplit sep rest
    else
      match pySplit sep rest with
      | [] => [[c]]
      | piece :: pieces => (c :: piece) :: pieces

/-- ASCII decimal digit test, as used by Python's `int(str)` grammar. -/
def isDigit (c : Char) : Bool := '0' ≤ c && c ≤ '9'

/-- Numeric value of a decimal digit character. -/
def digitVal (c : Char) : Nat := c.toNat - 48

/-- Whitespace stripped by Python's `int(str)` (ASCII fragment). -/
def isPySpace (c : Char) : Bool :=
  c = ' ' || c = '\t' || c = '\n' || c = '\x0d' || c = '\x0b' || c = '\x0c'

/-- Strip leading and trailing `int()`-whitespace, like Python does
before parsing an integer literal. -/
def pyStrip (s : List Char) : List Char :=
  ((s.dropWhile isPySpace).reverse.dropWhile isPySpace).reverse

/-- Continuation of Python's `digitpart` grammar `digit (["_"] digit)*`:
consumes further digits, allowing a single `'_'` between two digits
(Python 3 digit grouping), accumulating the value in `acc`. -/
def digitsAux : List Char → Nat → Option Nat
  | [], acc => some acc
  | c :: rest, acc =>
    if isDigit c then digitsAux rest (acc * 10 + digitVal c)
    else if c = '_' then
      match rest with
      | [] => none
      | d :: rest2 =>
        if isDigit d then digitsAux rest2 (acc * 10 + digitVal d) else none
    else none

/-- Python's `digitpart` grammar: a nonempty digit string with optional
single underscores between digits; no leading or trailing underscore. -/
def digitpart : List Char → Option Nat
  | [] => none
  | c :: rest => if isDigit c then digitsAux rest (digitVal c) else none

/-- Sign-and-digits parsing of an already-stripped integer literal. -/
def pyIntCore : List Char → Option Int
  | [] => none
  | c :: rest =>
    if c = '+' then (digitpart rest).map Int.ofNat
    else if c = '-' then (digitpart rest).map (fun n => -(n : Int))
    else (digitpart (c :: rest)).map Int.ofNat

/-- Python's `int(str)` on the ASCII fragment: strips whitespace, allows
one optional sign, then requires a `digitpart`; raises `ValueError`
(here: `none`) otherwise.  Unbounded precision, as in Python. -/
def pyInt (s : List Char) : Option Int := pyIntCore (pyStrip s)

/-- Value of a plain (underscore-free) decimal digit string. -/
def valDigits (s : List Char) : Nat :=
  s.foldl (fun n c => n * 10 + digitVal c) 0

example : pyInt "123".data = some 123 := by decide
example : pyInt "".data = none := by decide
example : pyInt "-7".data = some (-7) := by decide
example : pyInt " +1_2 ".data = some 12 := by decide
example : pyInt "1__2".data = none := by decide
example : pyInt "1_".data = none := by decide
example : pyInt "_1".data = none := by decide
example : pyInt "1_x".data = none := by decide
example : pySplit '_' "admin_3_4".data = ["admin".data, "3".data, "4".data] := by decide
example : pySplit '_' "admin_".data = ["admin".data, [] ] := by decide
example : startswith "admin_3".data "admin_".data = true := by decide
example : startswith "3".data "admin_".data = false := by decide

/-! ### Data model

`Modelled from the spec:` the ORM entity definitions live in
`app/models.py`, which is not part of this excerpt; only the fields this
module touches are modelled (spec: "fields: username=`admin`,
email=`admin@banking.com`, password=hash of `admin123`"; `User` and
`Admin` are looked up by integer primary key). -/

/-- A row of the `Admin` table (the fields used by this module). -/
structure AdminRow where
  id : Nat
  username : List Char
  email : List Char
  password : List Char
deriving DecidableEq, Repr

/-- A row of the `User` table (only the primary key is used here). -/
structure UserRow where
  id : Nat
deriving DecidableEq, Repr

/-- The database state visible to this module: the two principal tables
plus the autoincrement counter the ORM uses for a freshly inserted
`Admin` row's primary key. -/
structure Db where
  admins : List AdminRow
  users : List UserRow
  nextAdminId : Nat
deriving DecidableEq, Repr

/-- An authenticated principal, as returned by the user loader. -/
inductive Principal where
  | adminP (a : AdminRow)
  | userP (u : UserRow)
deriving DecidableEq, Repr

/-- A Python exception escaping `load_user` (the loader has no
`try`/`except`, so these propagate to the framework). -/
inductive PyError where
  | valueError
  | indexError
deriving DecidableEq, Repr

/-! ### The principal loader `load_user` -/

/-- The single ORM query issued by one `load_user` call: a primary-key
lookup against exactly one of the two tables. -/
inductive LoadQuery where
  | adminGet (i : Int)
  | userGet (i : Int)
deriving DecidableEq, Repr

/-- The branch-and-parse part of `load_user`: decides which table is
queried and with which key.  Mirrors the source:
`if user_id.startswith('admin_'): Admin.query.get(int(user_id.split('_')[1]))
else: User.query.get(int(user_id))`; `int()` on garbage raises
`ValueError` and a missing `split` piece would raise `IndexError`. -/
def load_user_query (user_id : List Char) : Except PyError LoadQuery :=
  if startswith user_id "admin_".data then
    match (pySplit '_' user_id)[1]? with
    | none => .error .indexError
    | some piece =>
      match pyInt piece with
      | none => .error .valueError
      | some i => .ok (.adminGet i)
  else
    match pyInt user_id with
    | none => .error .valueError
    | some i => .ok (.userGet i)

/-- `load_user` in full: runs the single query decided by
`load_user_query` against the database (`query.get` returns the row
with the given primary key, or `None`). -/
def load_user (db : Db) (user_id : List Char) : Except PyError (Option Principal) :=
  match load_user_query user_id with
  | .error e => .error e
  | .ok (.adminGet i) =>
    .ok ((db.admins.find? fun a => ((a.id : Int) == i)).map Principal.adminP)
  | .ok (.userGet i) =>
    .ok ((db.users.find? fun u => ((u.id : Int) == i)).map Principal.userP)

example : load_user_query "admin_3".data = .ok (.adminGet 3) := rfl
example : load_user_query "42".data = .ok (.userGet 42) := rfl
example : load_user_query "admin_3_4".data = .ok (.adminGet 3) := rfl
example : load_user_query "admin_".data = .error .valueError := rfl
example : load_user_query "admin_x".data = .error .valueError := rfl
example : load_user_query "abc".data = .error .valueError := rfl

/-! ### Password hashing

`Modelled from the spec:` `generate_password_hash`/`check_password_hash`
are werkzeug library code, not part of this repository.  Following the
spec ("a salted hash of the literal password `admin123`" that later
"authenticates successfully ... against the stored hash"), the werkzeug
`method$salt$hash` string format and the recompute-and-compare check are
modelled exactly; the PBKDF2-SHA256 digest itself is abstracted as a
deterministic function of salt and password, which is all the claims
depend on. -/

/-- Abstract stand-in for the PBKDF2-SHA256 digest: any deterministic
function of salt and password. -/
def pbkdf2Digest (salt pw : List Char) : List Char :=
  (salt ++ pw).map fun c => Char.ofNat (97 + (c.toNat * 7 + 3) % 26)

/-- werkzeug's `generate_password_hash(pw, method='pbkdf2:sha256')` with
the (randomly drawn) salt made explicit: produces
`"pbkdf2:sha256$<salt>$<digest>"`. -/
def generate_password_hash (salt pw : List Char) : List Char :=
  "pbkdf2:sha256".data ++ '$' :: (salt ++ '$' :: pbkdf2Digest salt pw)

/-- Split a string at the first occurrence of `sep` (werkzeug's
`pwhash.split("$", 2)` applied step by step). -/
def splitOnceAt (sep : Char) : List Char → Option (List Char × List Char)
  | [] => none
  | c :: rest =>
    if c = sep then some ([], rest)
    else (splitOnceAt sep rest).map fun p => (c :: p.1, p.2)

/-- werkzeug's `check_password_hash`: parse `method$salt$hash`,
recompute the digest from the parsed salt and the candidate password,
compare. -/
def check_password_hash (pwhash pw : List Char) : Bool :=
  match splitOnceAt '$' pwhash with
  | none => false
  | some (_, rest) =>
    match splitOnceAt '$' rest with
    | none => false
    | some (salt, hashval) => hashval == pbkdf2Digest salt pw

example : check_password_hash (generate_password_hash "xY".data "admin123".data) "admin123".data = true := by decide
example : check_password_hash (generate_password_hash "xY".data "admin123".data) "admin124".data = false := by decide

/-! ### Startup seeding (`create_app`, lines 87-112) -/

/-- One observable side effect of the seeding block in `create_app`:
`db.create_all()`, `db.session.add(default_admin)`,
`db.session.commit()`, and the banner `print`s (collapsed into one
event). -/
inductive SeedEvent where
  | createAll
  | sessionAdd (a : AdminRow)
  | commitTxn
  | printBanner
deriving DecidableEq, Repr

/-- The query `Admin.query.filter_by(username='admin').first()`. -/
def findDefaultAdmin (db : Db) : Option AdminRow :=
  db.admins.find? fun a => a.username == "admin".data

/-- The `with app.app_context():` block of `create_app`: run
`db.create_all()` (creates missing tables; touches no rows, modelled as
the identity on table contents), query for an admin named `admin`, and
if absent construct the default admin, add it to the session, commit,
and print the banner.  `salt` is the random salt werkzeug draws inside
`generate_password_hash`; the fresh row's primary key is the table's
autoincrement counter.  Returns the resulting database and the event
trace in program order. -/
def create_app_seed (salt : List Char) (db : Db) : Db × List SeedEvent :=
  match findDefaultAdmin db with
  | some _ => (db, [.createAll])
  | none =>
    let default_admin : AdminRow :=
      { id := db.nextAdminId
        username := "admin".data
        email := "admin@banking.com".data
        password := generate_password_hash salt "admin123".data }
    ({ db with admins := db.admins ++ [default_admin]
               nextAdminId := db.nextAdminId + 1 },
     [.createAll, .sessionAdd default_admin, .commitTxn, .printBanner])

/-- Number of `Admin` rows whose username is `admin`. -/
def adminCount (db : Db) : Nat :=
  (db.admins.filter fun a => a.username == "admin".data).length

/-- N successive invocations of `create_app` against the same database,
each with its own fresh werkzeug salt (one list entry per invocation);
only the seeding block touches the database. -/
def runSeeds (salts : List (List Char)) (db : Db) : Db :=
  salts.foldl (fun d s => (create_app_seed s d).1) db

/-! ### Configuration (`Config`, lines 19-35) -/

/-- Python's `os.environ.get(name) or default` idiom: an unset variable
(`None`) and an empty string (falsy) both fall back to the default. -/
def envOr (v : Option (List Char)) (dflt : List Char) : List Char :=
  match v with
  | none => dflt
  | some s => if s = [] then dflt else s

/-- The settings held by the `Config` class. -/
structure ConfigVals where
  SECRET_KEY : List Char
  SQLALCHEMY_DATABASE_URI : List Char
  SQLALCHEMY_TRACK_MODIFICATIONS : Bool
  PERMANENT_SESSION_LIFETIME : Nat
  SESSION_COOKIE_HTTPONLY : Bool
  SESSION_COOKIE_SAMESITE : List Char
  WTF_CSRF_ENABLED : Bool
  WTF_CSRF_TIME_LIMIT : Option Nat
deriving DecidableEq, Repr

/-- The `Config` class body, evaluated against an environment `env`
(`os.environ.get`).  Only `SECRET_KEY` and `SQLALCHEMY_DATABASE_URI`
consult the environment; every other attribute is a literal. -/
def Config (env : List Char → Option (List Char)) : ConfigVals :=
  { SECRET_KEY :=
      envOr (env "SECRET_KEY".data) "dev-secret-key-change-in-production-2024".data
    SQLALCHEMY_DATABASE_URI :=
      envOr (env "DATABASE_URL".data) "sqlite:///bank.db".data
    SQLALCHEMY_TRACK_MODIFICATIONS := false
    PERMANENT_SESSION_LIFETIME := 1800
    SESSION_COOKIE_HTTPONLY := true
    SESSION_COOKIE_SAMESITE := "Lax".data
    WTF_CSRF_ENABLED := true
    WTF_CSRF_TIME_LIMIT := none }

/-! ### Routes and error handlers (lines 123-141) -/

/-- An HTTP response produced by the handlers defined in this module:
either a redirect (Flask's `redirect(url_for(endpoint))`, status 302) or
a rendered template with an explicit status. -/
inductive HttpResponse where
  | redirectTo (endpoint : List Char)
  | render (tmpl : List Char) (status : Nat)
deriving DecidableEq, Repr

/-- HTTP status code of a response (Flask's `redirect` defaults to 302). -/
def httpStatus : HttpResponse → Nat
  | .redirectTo _ => 302
  | .render _ s => s

/-- Whether the response renders a template directly. -/
def rendersTemplate : HttpResponse → Bool
  | .redirectTo _ => false
  | .render _ _ => true

/-- The `/` route: `return redirect(url_for('auth.choose'))`. -/
def index : HttpResponse := .redirectTo "auth.choose".data

/-- The 404 handler: `return render_template('errors/404.html'), 404`. -/
def not_found_error : HttpResponse := .render "errors/404.html".data 404

/-- A pending, uncommitted change sitting in the ORM session. -/
inductive DbChange where
  | addAdminRow (a : AdminRow)
  | addUserRow (u : UserRow)
deriving DecidableEq, Repr

/-- The ORM session at the time an error handler runs: the committed
database plus the pending (partially applied, uncommitted) changes of
the failed request. -/
structure OrmSession where
  committed : Db
  pending : List DbChange
deriving DecidableEq, Repr

/-- `db.session.rollback()`: discard every pending change; the committed
database is untouched. -/
def sessionRollback (s : OrmSession) : OrmSession :=
  { s with pending := [] }

/-- Side effects of the 500 handler, in program order. -/
inductive HandlerEvent where
  | rollbackTxn
  | renderTmpl (tmpl : List Char)
deriving DecidableEq, Repr

/-- The 500 handler: `db.session.rollback()` then
`return render_template('errors/500.html'), 500`. -/
def internal_error (s : OrmSession) : OrmSession × HttpResponse × List HandlerEvent :=
  let s2 := sessionRollback s
  (s2, .render "errors/500.html".data 500,
   [.rollbackTxn, .renderTmpl "errors/500.html".data])

/-- The spec's reading of a decimal-integer string (used to state
claims about malformed identifiers, not taken from the source): an
optional minus sign followed by one or more ASCII digits. -/
def isDecimalIntString (s : List Char) : Bool :=
  match s with
  | [] => false
  | '-' :: rest => !rest.isEmpty && rest.all isDigit
  | _ => s.all isDigit

/-! ### Helper lemmas -/

theorem digit_ne {c : Char} (h : isDigit c = true) :
    c ≠ '_' ∧ c ≠ '+' ∧ c ≠ '-' ∧ c ≠ 'a' := by
  refine ⟨?_, ?_, ?_, ?_⟩ <;> rintro rfl <;> exact absurd h (by decide)

theorem not_space_of_digit {c : Char} (h : isDigit c = true) :
    isPySpace c = false := by
  rw [Bool.eq_false_iff]
  intro hs
  simp only [isPySpace, Bool.or_eq_true, decide_eq_true_eq] at hs
  rcases hs with ((((rfl | rfl) | rfl) | rfl) | rfl) | rfl <;> exact absurd h (by decide)

theorem dropWhile_space_digits {ds : List Char}
    (h : ∀ c ∈ ds, isDigit c = true) : ds.dropWhile isPySpace = ds := by
  cases ds with
  | nil => rfl
  | cons c rest =>
    rw [List.dropWhile_cons, not_space_of_digit (h c (List.mem_cons_self c rest))]
    simp

theorem pyStrip_digits {ds : List Char}
    (h : ∀ c ∈ ds, isDigit c = true) : pyStrip ds = ds := by
  unfold pyStrip
  rw [dropWhile_space_digits h,
      dropWhile_space_digits (fun c hc => h c (List.mem_reverse.mp hc)),
      List.reverse_reverse]

theorem digitsAux_digits {ds : List Char}
    (h : ∀ c ∈ ds, isDigit c = true) (acc : Nat) :
    digitsAux ds acc = some (ds.foldl (fun n c => n * 10 + digitVal c) acc) := by
  induction ds generalizing acc with
  | nil => rfl
  | cons c rest ih =>
    have hc : isDigit c = true := h c (List.mem_cons_self c rest)
    rw [digitsAux.eq_def]
    simp only [hc, if_true, List.foldl_cons]
    exact ih (fun x hx => h x (List.mem_cons_of_mem c hx)) _

theorem pyInt_digits {ds : List Char} (hne : ds ≠ [])
    (h : ∀ c ∈ ds, isDigit c = true) :
    pyInt ds = some (Int.ofNat (valDigits ds)) := by
  cases ds with
  | nil => exact absurd rfl hne
  | cons c rest =>
    have hc : isDigit c = true := h c (List.mem_cons_self c rest)
    obtain ⟨-, hp, hm, -⟩ := digit_ne hc
    unfold pyInt
    rw [pyStrip_digits h]
    simp only [pyIntCore, if_neg hp, if_neg hm, digitpart, hc, if_true]
    rw [digitsAux_digits (fun x hx => h x (List.mem_cons_of_mem c hx))]
    simp [valDigits]

theorem startswith_append (p t : List Char) : startswith (p ++ t) p = true := by
  induction p with
  | nil => cases t <;> rfl
  | cons c ps ih => simp [startswith, ih]

theorem digits_not_admin {t : List Char} (hne : t ≠ [])
    (h : ∀ c ∈ t, isDigit c = true) :
    startswith t "admin_".data = false := by
  cases t with
  | nil => exact absurd rfl hne
  | cons c rest =>
    have hc : isDigit c = true := h c (List.mem_cons_self c rest)
    obtain ⟨-, -, -, ha⟩ := digit_ne hc
    simp [startswith, ha]

theorem pySplit_no_sep {sep : Char} {xs : List Char} (h : sep ∉ xs) :
    pySplit sep xs = [xs] := by
  induction xs with
  | nil => rfl
  | cons c rest ih =>
    have hc : ¬(c = sep) := fun e => h (e ▸ List.mem_cons_self c rest)
    have hr : sep ∉ rest := fun e => h (List.mem_cons_of_mem c e)
    rw [pySplit, if_neg hc, ih hr]

theorem pySplit_append {sep : Char} {xs ys : List Char} (h : sep ∉ xs) :
    pySplit sep (xs ++ sep :: ys) = xs :: pySplit sep ys := by
  induction xs with
  | nil => simp [pySplit]
  | cons c rest ih =>
    have hc : ¬(c = sep) := fun e => h (e ▸ List.mem_cons_self c rest)
    have hr : sep ∉ rest := fun e => h (List.mem_cons_of_mem c e)
    rw [List.cons_append, pySplit, if_neg hc, ih hr]

theorem splitOnceAt_append {sep : Char} {xs ys : List Char} (h : sep ∉ xs) :
    splitOnceAt sep (xs ++ sep :: ys) = some (xs, ys) := by
  induction xs with
  | nil => simp [splitOnceAt]
  | cons c rest ih =>
    have hc : ¬(c = sep) := fun e => h (e ▸ List.mem_cons_self c rest)
    have hr : sep ∉ rest := fun e => h (List.mem_cons_of_mem c e)
    rw [List.cons_append, splitOnceAt, if_neg hc, ih hr]
    rfl

theorem check_generate {salt pw : List Char} (h : '$' ∉ salt) :
    check_password_hash (generate_password_hash salt pw) pw = true := by
  unfold check_password_hash generate_password_hash
  rw [splitOnceAt_append (by decide)]
  simp only []
  rw [splitOnceAt_append h]
  simp

theorem no_underscore_of_digits {t : List Char}
    (h : ∀ c ∈ t, isDigit c = true) : '_' ∉ t := by
  intro hm
  exact absurd (h '_' hm) (by decide)

/-! ### Claim theorems -/

/-- Shared unfolding of the seeding step in the no-admin case. -/
theorem create_app_seed_of_none :
    ∀ (salt : List Char) (db : Db), findDefaultAdmin db = none →
      create_app_seed salt db =
        ({ admins := db.admins ++
             [{ id := db.nextAdminId
                username := "admin".data
                email := "admin@banking.com".data
                password := generate_password_hash salt "admin123".data }]
           users := db.users
           nextAdminId := db.nextAdminId + 1 },
         [SeedEvent.createAll,
          SeedEvent.sessionAdd
            { id := db.nextAdminId
              username := "admin".data
              email := "admin@banking.com".data
              password := generate_password_hash salt "admin123".data },
          SeedEvent.commitTxn, SeedEvent.printBanner]) := by
  intro salt db h
  unfold create_app_seed
  rw [h]

/-- C3: when `create_app` runs against a database containing no `Admin`
row with username `admin`, it inserts exactly one `Admin` row with
username `admin`, email `admin@banking.com`, and password the salted
hash of the literal `admin123`, and then commits that insertion (the
event trace shows the `session.add` followed by the `commit`). -/
theorem C3_seed_inserts_default_admin :
    ∀ (salt : List Char) (db : Db), findDefaultAdmin db = none →
      create_app_seed salt db =
        ({ admins := db.admins ++
             [{ id := db.nextAdminId
                username := "admin".data
                email := "admin@banking.com".data
                password := generate_password_hash salt "admin123".data }]
           users := db.users
           nextAdminId := db.nextAdminId + 1 },
         [SeedEvent.createAll,
          SeedEvent.sessionAdd
            { id := db.nextAdminId
              username := "admin".data
              email := "admin@banking.com".data
              password := generate_password_hash salt "admin123".data },
          SeedEvent.commitTxn, SeedEvent.printBanner]) :=
  create_app_seed_of_none

/-- Witness for C3 at a concrete fresh database and salt. -/
theorem C3_seed_inserts_default_admin_witness :
    create_app_seed "s0".data { admins := [], users := [], nextAdminId := 1 } =
      ({ admins :=
           [{ id := 1
              username := "admin".data
              email := "admin@banking.com".data
              password := generate_password_hash "s0".data "admin123".data }]
         users := []
         nextAdminId := 2 },
       [SeedEvent.createAll,
        SeedEvent.sessionAdd
          { id := 1
            username := "admin".data
            email := "admin@banking.com".data
            password := generate_password_hash "s0".data "admin123".data },
        SeedEvent.commitTxn, SeedEvent.printBanner]) :=
  C3_seed_inserts_default_admin "s0".data
    { admins := [], users := [], nextAdminId := 1 } rfl

/-- C5: `GET /` returns a redirect to the authentication module's
`auth.choose` endpoint (status 302); it never returns a 200 and never
renders a template directly. -/
theorem C5_index_always_redirects :
    index = HttpResponse.redirectTo "auth.choose".data ∧
    httpStatus index = 302 ∧ httpStatus index ≠ 200 ∧
    rendersTemplate index = false :=
  ⟨rfl, rfl, by decide, rfl⟩

/-- C6: the 500 handler first rolls back the pending ORM transaction
(every pending change of the failed request is discarded, the committed
state is untouched, nothing is committed) and then renders the
dedicated error template with status 500; the event trace shows the
rollback happening before the render. -/
theorem C6_internal_error_rolls_back :
    ∀ s : OrmSession,
      (internal_error s).1 = sessionRollback s ∧
      (internal_error s).1.pending = [] ∧
      (internal_error s).1.committed = s.committed ∧
      (internal_error s).2.1 = HttpResponse.render "errors/500.html".data 500 ∧
      httpStatus (internal_error s).2.1 = 500 ∧
      (internal_error s).2.2 =
        [HandlerEvent.rollbackTxn, HandlerEvent.renderTmpl "errors/500.html".data] :=
  fun _ => ⟨rfl, rfl, rfl, rfl, rfl, rfl⟩

/-- C7 counterexample: the claim says every configuration value held by
`Config` is overridable via an environment variable, but the session
lifetime, the modification-tracking flag, the cookie flags and the CSRF
settings are literals: they are the same constant under every
environment, including one that sets every variable to `"9999"`. -/
theorem C7_counterexample :
    (fun env => (Config env).PERMANENT_SESSION_LIFETIME) = (fun _ => 1800) ∧
    (fun env => (Config env).SQLALCHEMY_TRACK_MODIFICATIONS) = (fun _ => false) ∧
    (fun env => (Config env).SESSION_COOKIE_HTTPONLY) = (fun _ => true) ∧
    (fun env => (Config env).SESSION_COOKIE_SAMESITE) = (fun _ => "Lax".data) ∧
    (fun env => (Config env).WTF_CSRF_ENABLED) = (fun _ => true) ∧
    (fun env => (Config env).WTF_CSRF_TIME_LIMIT) = (fun _ => (none : Option Nat)) ∧
    (Config (fun _ => some "9999".data)).PERMANENT_SESSION_LIFETIME = 1800 ∧
    (Config (fun _ => some "9999".data)).WTF_CSRF_ENABLED = true :=
  ⟨rfl, rfl, rfl, rfl, rfl, rfl, rfl, rfl⟩

/-- C7 amended: only the secret key (`SECRET_KEY`) and the database URL
(`DATABASE_URL`) are overridable via environment variables, falling back
to hard-coded defaults when the variable is unset (or set to the falsy
empty string); the remaining settings — modification tracking off,
session lifetime 1800 seconds, HTTP-only and SameSite=Lax cookies, CSRF
enabled with no token expiry — are hard-coded constants independent of
the environment. -/
theorem C7_amended_config_env :
    (∀ env v, env "SECRET_KEY".data = some v → v ≠ [] →
        (Config env).SECRET_KEY = v) ∧
    (∀ env, env "SECRET_KEY".data = none →
        (Config env).SECRET_KEY = "dev-secret-key-change-in-production-2024".data) ∧
    (∀ env v, env "DATABASE_URL".data = some v → v ≠ [] →
        (Config env).SQLALCHEMY_DATABASE_URI = v) ∧
    (∀ env, env "DATABASE_URL".data = none →
        (Config env).SQLALCHEMY_DATABASE_URI = "sqlite:///bank.db".data) ∧
    (∀ env, (Config env).SQLALCHEMY_TRACK_MODIFICATIONS = false ∧
            (Config env).PERMANENT_SESSION_LIFETIME = 1800 ∧
            (Config env).SESSION_COOKIE_HTTPONLY = true ∧
            (Config env).SESSION_COOKIE_SAMESITE = "Lax".data ∧
            (Config env).WTF_CSRF_ENABLED = true ∧
            (Config env).WTF_CSRF_TIME_LIMIT = none) := by
  refine ⟨?_, ?_, ?_, ?_, ?_⟩
  · intro env v hv hne
    simp [Config, envOr, hv, hne]
  · intro env hv
    simp [Config, envOr, hv]
  · intro env v hv hne
    simp [Config, envOr, hv, hne]
  · intro env hv
    simp [Config, envOr, hv]
  · intro env
    exact ⟨rfl, rfl, rfl, rfl, rfl, rfl⟩

/-- Witness for the amended C7 at a concrete environment that sets both
variables, and at the empty environment. -/
theorem C7_amended_config_env_witness :
    (Config (fun k => if k = "SECRET_KEY".data then some "k1".data
                      else if k = "DATABASE_URL".data then some "postgres://h/d".data
                      else none)).SECRET_KEY = "k1".data ∧
    (Config (fun k => if k = "SECRET_KEY".data then some "k1".data
                      else if k = "DATABASE_URL".data then some "postgres://h/d".data
                      else none)).SQLALCHEMY_DATABASE_URI = "postgres://h/d".data ∧
    (Config (fun _ => none)).SECRET_KEY =
      "dev-secret-key-change-in-production-2024".data ∧
    (Config (fun _ => none)).SQLALCHEMY_DATABASE_URI = "sqlite:///bank.db".data ∧
    (Config (fun _ => none)).PERMANENT_SESSION_LIFETIME = 1800 :=
  ⟨C7_amended_config_env.1 _ "k1".data (by decide) (by decide),
   (C7_amended_config_env.2.2.1) _ "postgres://h/d".data (by decide) (by decide),
   C7_amended_config_env.2.1 _ rfl,
   (C7_amended_config_env.2.2.2.1) _ rfl,
   ((C7_amended_config_env.2.2.2.2) _).2.1⟩

theorem findDefaultAdmin_eq_none_iff {db : Db} :
    findDefaultAdmin db = none ↔ ∀ a ∈ db.admins, a.username ≠ "admin".data := by
  unfold findDefaultAdmin
  rw [List.find?_eq_none]
  constructor
  · intro h a ha
    have := h a ha
    simpa using this
  · intro h a ha
    simpa using h a ha

theorem findDefaultAdmin_isSome {db : Db}
    (h : ∃ a ∈ db.admins, a.username = "admin".data) :
    ∃ b, findDefaultAdmin db = some b := by
  rcases h with ⟨a, ha, hu⟩
  have : (findDefaultAdmin db).isSome := by
    unfold findDefaultAdmin
    rw [List.find?_isSome]
    exact ⟨a, ha, by simpa using hu⟩
  rcases Option.isSome_iff_exists.mp this with ⟨b, hb⟩
  exact ⟨b, hb⟩

theorem adminCount_zero_iff {db : Db} :
    adminCount db = 0 ↔ ∀ a ∈ db.admins, a.username ≠ "admin".data := by
  unfold adminCount
  rw [List.length_eq_zero, List.filter_eq_nil_iff]
  constructor
  · intro h a ha
    have := h a ha
    simpa using this
  · intro h a ha
    simpa using h a ha

/-- C10: frame property of the seeding step.  When an `Admin` row named
`admin` already exists, `create_app_seed` leaves the database exactly as
it was (no row added to any table beyond `db.create_all`'s
table-creation, which touches no rows), and the event trace contains
only the `create_all` call: no `session.add`, no commit, no banner. -/
theorem C10_seed_frame :
    ∀ (salt : List Char) (db : Db),
      (∃ a ∈ db.admins, a.username = "admin".data) →
      create_app_seed salt db = (db, [SeedEvent.createAll]) := by
  intro salt db h
  rcases findDefaultAdmin_isSome h with ⟨b, hb⟩
  unfold create_app_seed
  rw [hb]

/-- Witness for C10 at a concrete database that already holds an admin
row named `admin`. -/
theorem C10_seed_frame_witness :
    create_app_seed "zz".data
        { admins := [{ id := 5, username := "admin".data,
                       email := "e@x".data, password := "h".data }]
          users := [], nextAdminId := 6 } =
      ({ admins := [{ id := 5, username := "admin".data,
                      email := "e@x".data, password := "h".data }]
         users := [], nextAdminId := 6 }, [SeedEvent.createAll]) :=
  C10_seed_frame "zz".data _
    ⟨{ id := 5, username := "admin".data, email := "e@x".data,
       password := "h".data }, by simp, rfl⟩

/-- C8: after seeding into a database with no default admin, the seeded
row's password field is the salted hash of the literal `admin123`, and
`check_password_hash` of that stored hash against the input `admin123`
returns true (for any werkzeug salt, which never contains `'$'`). -/
theorem C8_seeded_password_verifies :
    ∀ (salt : List Char) (db : Db), '$' ∉ salt → findDefaultAdmin db = none →
      ∃ a : AdminRow, a ∈ (create_app_seed salt db).1.admins ∧
        a.username = "admin".data ∧
        a.password = generate_password_hash salt "admin123".data ∧
        check_password_hash a.password "admin123".data = true := by
  intro salt db hsalt hnone
  rw [create_app_seed_of_none salt db hnone]
  refine ⟨_, List.mem_append_right _ (List.mem_singleton_self _), rfl, rfl, ?_⟩
  exact check_generate hsalt

/-- Witness for C8 at a concrete salt and a fresh database. -/
theorem C8_seeded_password_verifies_witness :
    ∃ a : AdminRow,
      a ∈ (create_app_seed "ab".data
             { admins := [], users := [], nextAdminId := 1 }).1.admins ∧
      a.username = "admin".data ∧
      a.password = generate_password_hash "ab".data "admin123".data ∧
      check_password_hash a.password "admin123".data = true :=
  C8_seeded_password_verifies "ab".data
    { admins := [], users := [], nextAdminId := 1 } (by decide) rfl

theorem adminCount_seed_of_zero {db : Db} (h : adminCount db = 0)
    (salt : List Char) : adminCount (create_app_seed salt db).1 = 1 := by
  have hnone : findDefaultAdmin db = none :=
    findDefaultAdmin_eq_none_iff.mpr (adminCount_zero_iff.mp h)
  rw [create_app_seed_of_none salt db hnone]
  unfold adminCount at h ⊢
  simp only [List.filter_append, List.length_append, h]
  simp

theorem seed_of_one {db : Db} (h : adminCount db = 1) (salt : List Char) :
    (create_app_seed salt db).1 = db := by
  have : ∃ a ∈ db.admins, a.username = "admin".data := by
    by_contra hc
    push_neg at hc
    have : adminCount db = 0 := adminCount_zero_iff.mpr hc
    omega
  rcases findDefaultAdmin_isSome this with ⟨b, hb⟩
  unfold create_app_seed
  rw [hb]

theorem runSeeds_of_one {db : Db} (h : adminCount db = 1) :
    ∀ salts : List (List Char), adminCount (runSeeds salts db) = 1 := by
  intro salts
  induction salts generalizing db with
  | nil => exact h
  | cons s rest ih =>
    unfold runSeeds
    rw [List.foldl_cons, seed_of_one h s]
    exact ih h

/-- C1: idempotent seeding.  Starting from a database with no `Admin`
row named `admin`, any positive number of `create_app` invocations (one
werkzeug salt per invocation) leaves exactly one such row; starting from
a database that already has exactly one, any number of invocations
keeps exactly one; and an invocation inserts the default admin only
when no `Admin` row named `admin` is present — if one is present the
database is returned unchanged. -/
theorem C1_idempotent_seeding :
    (∀ (salts : List (List Char)) (db : Db), adminCount db = 0 → salts ≠ [] →
        adminCount (runSeeds salts db) = 1) ∧
    (∀ (salts : List (List Char)) (db : Db), adminCount db = 1 →
        adminCount (runSeeds salts db) = 1) ∧
    (∀ (salt : List Char) (db : Db),
        (∃ a ∈ db.admins, a.username = "admin".data) →
        (create_app_seed salt db).1 = db) := by
  refine ⟨?_, ?_, ?_⟩
  · intro salts db h hne
    cases salts with
    | nil => exact absurd rfl hne
    | cons s rest =>
      unfold runSeeds
      rw [List.foldl_cons]
      exact runSeeds_of_one (adminCount_seed_of_zero h s) rest
  · intro salts db h
    exact runSeeds_of_one h salts
  · intro salt db h
    rcases findDefaultAdmin_isSome h with ⟨b, hb⟩
    unfold create_app_seed
    rw [hb]

/-- Witness for C1: two invocations against a fresh database leave one
admin row; a further invocation against a database that already has one
leaves it unchanged. -/
theorem C1_idempotent_seeding_witness :
    adminCount (runSeeds ["s1".data, "s2".data]
      { admins := [], users := [], nextAdminId := 1 }) = 1 ∧
    (create_app_seed "s3".data
      { admins := [{ id := 1, username := "admin".data,
                     email := "e@x".data, password := "h".data }]
        users := [], nextAdminId := 2 }).1 =
      { admins := [{ id := 1, username := "admin".data,
                     email := "e@x".data, password := "h".data }]
        users := [], nextAdminId := 2 } :=
  ⟨C1_idempotent_seeding.1 ["s1".data, "s2".data]
     { admins := [], users := [], nextAdminId := 1 } rfl (by simp),
   C1_idempotent_seeding.2.2 "s3".data _
     ⟨{ id := 1, username := "admin".data, email := "e@x".data,
        password := "h".data }, by simp, rfl⟩⟩

/-- C2: table dispatch of the principal loader.  Any identifier starting
with `admin_` can only ever produce an `Admin`-table query, never a
`User`-table one (also when the parse fails and the loader raises
instead); for a canonical `admin_<digits>` identifier the query key is
the integer parsed from the suffix.  Any identifier not starting with
`admin_` can only ever produce a `User`-table query, never an
`Admin`-table one; for a digit-string identifier the key is the
identifier parsed as an integer. -/
theorem C2_loader_table_dispatch :
    (∀ user_id : List Char, startswith user_id "admin_".data = true →
        ∀ q, load_user_query user_id = Except.ok q →
          ∃ i, q = LoadQuery.adminGet i) ∧
    (∀ t : List Char, t ≠ [] → (∀ c ∈ t, isDigit c = true) →
        load_user_query ("admin_".data ++ t) =
          Except.ok (LoadQuery.adminGet (Int.ofNat (valDigits t)))) ∧
    (∀ user_id : List Char, startswith user_id "admin_".data = false →
        ∀ q, load_user_query user_id = Except.ok q →
          ∃ i, q = LoadQuery.userGet i) ∧
    (∀ t : List Char, t ≠ [] → (∀ c ∈ t, isDigit c = true) →
        load_user_query t = Except.ok (LoadQuery.userGet (Int.ofNat (valDigits t)))) := by
  refine ⟨?_, ?_, ?_, ?_⟩
  · intro uid h q hq
    rcases hg : (pySplit '_' uid)[1]? with _ | piece
    · simp [load_user_query, h, hg] at hq
    · rcases hi : pyInt piece with _ | i
      · simp [load_user_query, h, hg, hi] at hq
      · simp [load_user_query, h, hg, hi] at hq
        exact ⟨i, hq.symm⟩
  · intro t hne hd
    have h1 : '_' ∉ t := no_underscore_of_digits hd
    have hs : startswith ("admin".data ++ '_' :: t) "admin_".data = true :=
      startswith_append "admin_".data t
    have key : load_user_query ("admin".data ++ '_' :: t) =
        Except.ok (LoadQuery.adminGet (Int.ofNat (valDigits t))) := by
      unfold load_user_query
      rw [if_pos hs, pySplit_append (by decide), pySplit_no_sep h1]
      simp [pyInt_digits hne hd]
    exact key
  · intro uid h q hq
    rcases hi : pyInt uid with _ | i
    · simp [load_user_query, h, hi] at hq
    · simp [load_user_query, h, hi] at hq
      exact ⟨i, hq.symm⟩
  · intro t hne hd
    have h : startswith t "admin_".data = false := digits_not_admin hne hd
    simp [load_user_query, h, pyInt_digits hne hd]

/-- Witness for C2 at concrete identifiers `admin_7` and `42`. -/
theorem C2_loader_table_dispatch_witness :
    load_user_query ("admin_".data ++ "7".data) =
      Except.ok (LoadQuery.adminGet (Int.ofNat (valDigits "7".data))) ∧
    load_user_query "42".data =
      Except.ok (LoadQuery.userGet (Int.ofNat (valDigits "42".data))) :=
  ⟨C2_loader_table_dispatch.2.1 "7".data (by decide) (by decide),
   C2_loader_table_dispatch.2.2.2 "42".data (by decide) (by decide)⟩

/-- C9: implicit multi-underscore behaviour of the loader.  For an
identifier `admin_<digits>_<anything>`, `load_user` resolves against the
`Admin` table using only the segment between the first and second
underscore, silently ignoring everything after it; the bare identifier
`admin_` (empty suffix) raises a `ValueError`. -/
theorem C9_multi_underscore_segments :
    (∀ ds b : List Char, ds ≠ [] → (∀ c ∈ ds, isDigit c = true) →
        load_user_query ("admin_".data ++ ds ++ '_' :: b) =
          Except.ok (LoadQuery.adminGet (Int.ofNat (valDigits ds)))) ∧
    load_user_query "admin_".data = Except.error PyError.valueError := by
  constructor
  · intro ds b hne hd
    have h1 : '_' ∉ ds := no_underscore_of_digits hd
    have hs : startswith ("admin".data ++ '_' :: (ds ++ '_' :: b)) "admin_".data = true :=
      startswith_append "admin_".data (ds ++ '_' :: b)
    have key : load_user_query ("admin".data ++ '_' :: (ds ++ '_' :: b)) =
        Except.ok (LoadQuery.adminGet (Int.ofNat (valDigits ds))) := by
      unfold load_user_query
      rw [if_pos hs, pySplit_append (by decide), pySplit_append h1]
      simp [pyInt_digits hne hd]
    exact key
  · rfl

/-- Witness for C9 at the concrete identifier `admin_3_4`. -/
theorem C9_multi_underscore_segments_witness :
    load_user_query ("admin_".data ++ "3".data ++ '_' :: "4".data) =
      Except.ok (LoadQuery.adminGet (Int.ofNat (valDigits "3".data))) ∧
    load_user_query "admin_".data = Except.error PyError.valueError :=
  ⟨C9_multi_underscore_segments.1 "3".data "4".data (by decide) (by decide),
   C9_multi_underscore_segments.2⟩

/-- C4 counterexample: the identifier `admin_1_x` begins with `admin_`
and its suffix after the first underscore, `1_x`, is not a decimal
integer (it is not even accepted by Python's `int`), so the claim says
`load_user` raises on it — but the loader parses only `split('_')[1]`
(`"1"`) and returns normally with an `Admin`-table query for id 1. -/
theorem C4_counterexample :
    startswith "admin_1_x".data "admin_".data = true ∧
    splitOnceAt '_' "admin_1_x".data = some ("admin".data, "1_x".data) ∧
    isDecimalIntString "1_x".data = false ∧
    pyInt "1_x".data = none ∧
    load_user_query "admin_1_x".data = Except.ok (LoadQuery.adminGet 1) ∧
    load_user { admins := [], users := [], nextAdminId := 1 } "admin_1_x".data =
      Except.ok none :=
  ⟨by decide, by decide, by decide, by decide, rfl, rfl⟩

/-- C4 amended: for every identifier beginning with `admin_` whose
`split('_')[1]` segment (the part between the first and second
underscore) fails integer parsing, and for every identifier not
beginning with `admin_` that fails integer parsing, the loader raises
`ValueError` rather than returning a value; the error is not caught
inside the loader, so the full lookup propagates it for any database. -/
theorem C4_amended_malformed_raises :
    (∀ user_id piece : List Char, startswith user_id "admin_".data = true →
        (pySplit '_' user_id)[1]? = some piece → pyInt piece = none →
        load_user_query user_id = Except.error PyError.valueError ∧
        ∀ db : Db, load_user db user_id = Except.error PyError.valueError) ∧
    (∀ user_id : List Char, startswith user_id "admin_".data = false →
        pyInt user_id = none →
        load_user_query user_id = Except.error PyError.valueError ∧
        ∀ db : Db, load_user db user_id = Except.error PyError.valueError) := by
  constructor
  · intro uid piece h hg hi
    have hq : load_user_query uid = Except.error PyError.valueError := by
      simp [load_user_query, h, hg, hi]
    exact ⟨hq, fun db => by simp [load_user, hq]⟩
  · intro uid h hi
    have hq : load_user_query uid = Except.error PyError.valueError := by
      simp [load_user_query, h, hi]
    exact ⟨hq, fun db => by simp [load_user, hq]⟩

/-- Witness for the amended C4 at the concrete identifiers `admin_x`
and `abc`. -/
theorem C4_amended_malformed_raises_witness :
    load_user_query "admin_x".data = Except.error PyError.valueError ∧
    load_user_query "abc".data = Except.error PyError.valueError :=
  ⟨(C4_amended_malformed_raises.1 "admin_x".data "x".data
      (by decide) (by decide) (by decide)).1,
   (C4_amended_malformed_raises.2 "abc".data (by decide) (by decide)).1⟩
